import Mathlib

set_option maxRecDepth 8192

namespace Eskon

/-!
Shallow embedding of the authentication session/token subsystem of the
`eskon` rental-listing web client:

* `src/app/core/utils/jwt.util.ts` — JWT payload decoding and claim extraction;
* `src/app/auth/services/auth.service.ts` — the session manager (tokens,
  expiry cookie, refresh scheduling, logout/revoke);
* `src/app/core/interceptors/error.interceptor.ts` — centralized HTTP error
  handling, in particular the 401 session-clear path.

JavaScript dynamic values are modelled by the `Json` type; browser builtins
used by the code (`atob`, the `decodeURIComponent` percent-decoding round
trip, `JSON.parse`, `JSON.stringify`) are modelled as total Lean functions
returning `Option` where the builtin throws.
-/

/-- Model of a JavaScript/JSON dynamic value.  Numbers are modelled as
integers: the payloads handled by this code base carry no fractional
numerals. -/
inductive Json where
  | null
  | bool (b : Bool)
  | num (n : Int)
  | str (s : String)
  | arr (elems : List Json)
  | obj (fields : List (String × Json))

/-- JavaScript truthiness of a `Json` value (`undefined` is represented by
`Option.none` at use sites). -/
def jsTruthy (v : Json) : Bool :=
  match v with
  | .null => false
  | .bool b => b
  | .num n => decide (n ≠ 0)
  | .str s => decide (s ≠ "")
  | .arr _ => true
  | .obj _ => true

/-- Property lookup on an object: later duplicate keys win, matching the
last-wins semantics of object construction by `JSON.parse`. -/
def jsObjLookup (fields : List (String × Json)) (k : String) : Option Json :=
  (fields.reverse.find? (fun p => p.1 = k)).map (fun p => p.2)

/-- Property access `v[k]`: `none` models `undefined` (missing property or
non-object receiver). -/
def getField (v : Json) (k : String) : Option Json :=
  match v with
  | .obj fields => jsObjLookup fields k
  | _ => none

/-- Optional-chaining access `v?.k` where `v : Option Json` may itself be the
result of a fallible computation (`none` models `null`/`undefined`). -/
def optChainField (v : Option Json) (k : String) : Option Json :=
  match v with
  | none => none
  | some .null => none
  | some w => getField w k

/-- JavaScript `x || y` on possibly-absent dynamic values: `x` when truthy,
otherwise `y`. -/
def jsOr (x y : Option Json) : Option Json :=
  match x with
  | some v => if jsTruthy v then some v else y
  | none => y

/-- JavaScript `x || null`: `x` when truthy, otherwise `null` (`none`). -/
def truthyOrNull (x : Option Json) : Option Json :=
  match x with
  | some v => if jsTruthy v then some v else none
  | none => none

/-- Strict equality `v === lit` of a dynamic value against a string
literal. -/
def jsStrictEqStr (v : Option Json) (lit : String) : Bool :=
  match v with
  | some (.str t) => decide (t = lit)
  | _ => false

/-! Browser `atob` (forgiving base64 decoding to a byte list). -/

/-- Value of one base64-alphabet character, `none` for a character outside
the alphabet. -/
def base64Val (c : Char) : Option Nat :=
  if 'A' ≤ c ∧ c ≤ 'Z' then some (c.toNat - 'A'.toNat)
  else if 'a' ≤ c ∧ c ≤ 'z' then some (c.toNat - 'a'.toNat + 26)
  else if '0' ≤ c ∧ c ≤ '9' then some (c.toNat - '0'.toNat + 52)
  else if c = '+' then some 62
  else if c = '/' then some 63
  else none

/-- Decode a whitespace-free, padding-free base64 character list into bytes.
A trailing group of a single character is an error; trailing groups of two
or three characters contribute one or two bytes, with the leftover low bits
discarded, as in the WHATWG forgiving-base64 algorithm. -/
def atobChars : List Char → Option (List Nat)
  | [] => some []
  | [_] => none
  | [c1, c2] => do
      let v1 ← base64Val c1
      let v2 ← base64Val c2
      pure [v1 * 4 + v2 / 16]
  | [c1, c2, c3] => do
      let v1 ← base64Val c1
      let v2 ← base64Val c2
      let v3 ← base64Val c3
      pure [v1 * 4 + v2 / 16, (v2 % 16) * 16 + v3 / 4]
  | c1 :: c2 :: c3 :: c4 :: rest => do
      let v1 ← base64Val c1
      let v2 ← base64Val c2
      let v3 ← base64Val c3
      let v4 ← base64Val c4
      let tail ← atobChars rest
      pure ([v1 * 4 + v2 / 16, (v2 % 16) * 16 + v3 / 4, (v3 % 4) * 64 + v4] ++ tail)

/-- ASCII whitespace stripped by forgiving base64. -/
def isBase64Ws (c : Char) : Bool :=
  c = ' ' || c = '\t' || c = '\n' || c = '\x0d' || c = '\x0c'

/-- Strip up to two trailing padding characters when the input length is a
multiple of four. -/
def stripBase64Padding (cs : List Char) : List Char :=
  if cs.length % 4 = 0 then
    match cs.reverse with
    | '=' :: '=' :: rest => rest.reverse
    | '=' :: rest => rest.reverse
    | _ => cs
  else cs

/-- Model of the browser builtin `atob`: forgiving base64 decoding of a
string to a byte list, `none` where the builtin throws
`InvalidCharacterError`. -/
def atob (s : String) : Option (List Nat) :=
  atobChars (stripBase64Padding (s.data.filter (fun c => !(isBase64Ws c))))

/-! UTF-8 decoding.  `decodeJwtToken` percent-encodes each byte produced by
`atob` and feeds the result to `decodeURIComponent`; the composite is
exactly strict UTF-8 decoding of the byte list, throwing `URIError` on
malformed sequences. -/

/-- Value of a UTF-8 continuation byte, `none` if the byte is not a
continuation byte. -/
def utf8Cont (b : Nat) : Option Nat :=
  if 128 ≤ b ∧ b < 192 then some (b % 64) else none

/-- Strict UTF-8 decoding of a byte list, rejecting overlong encodings,
surrogate code points, and values above `0x10FFFF`. -/
def utf8Decode : List Nat → Option (List Char)
  | [] => some []
  | b :: rest =>
    if b < 128 then
      (utf8Decode rest).map (fun cs => Char.ofNat b :: cs)
    else if b < 194 then none
    else if b < 224 then
      match rest with
      | b2 :: rest2 => do
          let v2 ← utf8Cont b2
          let cs ← utf8Decode rest2
          pure (Char.ofNat ((b - 192) * 64 + v2) :: cs)
      | [] => none
    else if b < 240 then
      match rest with
      | b2 :: b3 :: rest3 => do
          let v2 ← utf8Cont b2
          let v3 ← utf8Cont b3
          let code := ((b - 224) * 64 + v2) * 64 + v3
          if code < 2048 then none
          else if 55296 ≤ code ∧ code < 57344 then none
          else (utf8Decode rest3).map (fun cs => Char.ofNat code :: cs)
      | _ => none
    else if b < 245 then
      match rest with
      | b2 :: b3 :: b4 :: rest4 => do
          let v2 ← utf8Cont b2
          let v3 ← utf8Cont b3
          let v4 ← utf8Cont b4
          let code := (((b - 240) * 64 + v2) * 64 + v3) * 64 + v4
          if code < 65536 then none
          else if code > 1114111 then none
          else (utf8Decode rest4).map (fun cs => Char.ofNat code :: cs)
      | _ => none
    else none

/-! Model of `JSON.parse`, via a fuel-indexed recursive-descent parser.
Partial-fidelity notes for this model of the host builtin: fractional and
exponent numerals, `\u` escapes denoting surrogate code units, and inputs
nested more deeply than the fuel bound are rejected (`none`); none of these
occur in the payloads this code base handles. -/

/-- JSON insignificant whitespace. -/
def jsonWsB (c : Char) : Bool :=
  c = ' ' || c = '\t' || c = '\n' || c = '\x0d'

/-- Drop leading JSON whitespace. -/
def skipJsonWs : List Char → List Char
  | [] => []
  | c :: rest => if jsonWsB c then skipJsonWs rest else c :: rest

/-- Value of a hexadecimal digit. -/
def hexDigitVal (c : Char) : Option Nat :=
  if '0' ≤ c ∧ c ≤ '9' then some (c.toNat - '0'.toNat)
  else if 'a' ≤ c ∧ c ≤ 'f' then some (c.toNat - 'a'.toNat + 10)
  else if 'A' ≤ c ∧ c ≤ 'F' then some (c.toNat - 'A'.toNat + 10)
  else none

/-- Parse the body of a JSON string after its opening quote, returning the
decoded characters and the input remaining after the closing quote. -/
def parseStringBody : List Char → Option (List Char × List Char)
  | [] => none
  | '"' :: rest => some ([], rest)
  | '\\' :: rest =>
    match rest with
    | [] => none
    | e :: rest2 =>
      let simple : Option Char :=
        if e = '"' then some '"'
        else if e = '\\' then some '\\'
        else if e = '/' then some '/'
        else if e = 'n' then some '\n'
        else if e = 't' then some '\t'
        else if e = 'r' then some '\x0d'
        else if e = 'b' then some '\x08'
        else if e = 'f' then some '\x0c'
        else none
      match simple with
      | some c => (parseStringBody rest2).map (fun p => (c :: p.1, p.2))
      | none =>
        if e = 'u' then
          match rest2 with
          | h1 :: h2 :: h3 :: h4 :: rest3 => do
              let v1 ← hexDigitVal h1
              let v2 ← hexDigitVal h2
              let v3 ← hexDigitVal h3
              let v4 ← hexDigitVal h4
              let code := ((v1 * 16 + v2) * 16 + v3) * 16 + v4
              if 55296 ≤ code ∧ code < 57344 then none
              else (parseStringBody rest3).map (fun p => (Char.ofNat code :: p.1, p.2))
          | _ => none
        else none
  | c :: rest =>
      if c.toNat < 32 then none
      else (parseStringBody rest).map (fun p => (c :: p.1, p.2))

/-- Split off a maximal run of leading decimal digits. -/
def takeDigits : List Char → List Char × List Char
  | [] => ([], [])
  | c :: rest =>
      if '0' ≤ c ∧ c ≤ '9' then
        let p := takeDigits rest
        (c :: p.1, p.2)
      else ([], c :: rest)

/-- Numeric value of a digit list. -/
def digitsToNat (ds : List Char) : Nat :=
  ds.foldl (fun acc c => acc * 10 + (c.toNat - '0'.toNat)) 0

/-- Parse a JSON integer numeral (minus sign and digits; leading zeros,
fractions and exponents are rejected). -/
def parseNumberChars (cs : List Char) : Option (Json × List Char) :=
  let (neg, cs1) :=
    match cs with
    | '-' :: rest => (true, rest)
    | _ => (false, cs)
  let (ds, rest) := takeDigits cs1
  if ds.isEmpty then none
  else if ds.length > 1 ∧ ds.headD 'x' = '0' then none
  else
    let n : Int := if neg then -(digitsToNat ds : Int) else (digitsToNat ds : Int)
    match rest with
    | c :: _ =>
        if c = '.' ∨ c = 'e' ∨ c = 'E' then none else some (.num n, rest)
    | [] => some (.num n, [])

mutual

/-- Parse one JSON value; the fuel bounds recursion depth. -/
def parseJsonVal : Nat → List Char → Option (Json × List Char)
  | 0, _ => none
  | Nat.succ fuel, cs =>
    match skipJsonWs cs with
    | 'n' :: 'u' :: 'l' :: 'l' :: rest => some (.null, rest)
    | 't' :: 'r' :: 'u' :: 'e' :: rest => some (.bool true, rest)
    | 'f' :: 'a' :: 'l' :: 's' :: 'e' :: rest => some (.bool false, rest)
    | '"' :: rest => (parseStringBody rest).map (fun p => (.str (String.mk p.1), p.2))
    | '[' :: rest =>
      (match skipJsonWs rest with
       | ']' :: rest2 => some (.arr [], rest2)
       | cs2 => (parseJsonElems fuel cs2).map (fun p => (.arr p.1, p.2)))
    | '\x7b' :: rest =>
      (match skipJsonWs rest with
       | '\x7d' :: rest2 => some (.obj [], rest2)
       | cs2 => (parseJsonMembers fuel cs2).map (fun p => (.obj p.1, p.2)))
    | cs2 => parseNumberChars cs2

/-- Parse the elements of a non-empty JSON array up to its closing
bracket. -/
def parseJsonElems : Nat → List Char → Option (List Json × List Char)
  | 0, _ => none
  | Nat.succ fuel, cs => do
    let (v, rest) ← parseJsonVal fuel cs
    match skipJsonWs rest with
    | ',' :: rest2 => (parseJsonElems fuel rest2).map (fun p => (v :: p.1, p.2))
    | ']' :: rest2 => some ([v], rest2)
    | _ => none

/-- Parse the members of a non-empty JSON object up to its closing brace. -/
def parseJsonMembers : Nat → List Char → Option (List (String × Json) × List Char)
  | 0, _ => none
  | Nat.succ fuel, cs =>
    match skipJsonWs cs with
    | '"' :: rest => do
      let (k, rest2) ← parseStringBody rest
      match skipJsonWs rest2 with
      | ':' :: rest3 => do
        let (v, rest4) ← parseJsonVal fuel rest3
        match skipJsonWs rest4 with
        | ',' :: rest5 =>
            (parseJsonMembers fuel rest5).map (fun p => ((String.mk k, v) :: p.1, p.2))
        | '\x7d' :: rest5 => some ([(String.mk k, v)], rest5)
        | _ => none
      | _ => none
    | _ => none

end

/-- Model of `JSON.parse`: `none` where the builtin throws `SyntaxError`. -/
def jsonParse (s : String) : Option Json :=
  match parseJsonVal (s.data.length * 2 + 16) s.data with
  | some (v, rest) => if (skipJsonWs rest).isEmpty then some v else none
  | none => none

/-- Lowercase hexadecimal digit character. -/
def hexChar (n : Nat) : Char :=
  if n < 10 then Char.ofNat ('0'.toNat + n) else Char.ofNat ('a'.toNat + (n - 10))

/-- Escape one character for a JSON string literal. -/
def escapeJsonChar (c : Char) : List Char :=
  if c = '"' then ['\\', '"']
  else if c = '\\' then ['\\', '\\']
  else if c = '\n' then ['\\', 'n']
  else if c = '\t' then ['\\', 't']
  else if c = '\x0d' then ['\\', 'r']
  else if c = '\x08' then ['\\', 'b']
  else if c = '\x0c' then ['\\', 'f']
  else if c.toNat < 32 then ['\\', 'u', '0', '0', hexChar (c.toNat / 16), hexChar (c.toNat % 16)]
  else [c]

/-- Quote and escape a string as a JSON string literal. -/
def quoteJsonString (s : String) : String :=
  "\"" ++ String.mk ((s.data.map escapeJsonChar).flatten) ++ "\""

mutual

/-- Model of `JSON.stringify` on `Json` values (no indentation, standard
escaping). -/
def jsonStringify : Json → String
  | .null => "null"
  | .bool true => "true"
  | .bool false => "false"
  | .num n => toString n
  | .str s => quoteJsonString s
  | .arr xs => "[" ++ stringifyElems xs ++ "]"
  | .obj fs => "\x7b" ++ stringifyFields fs ++ "\x7d"

/-- Comma-separated stringification of array elements. -/
def stringifyElems : List Json → String
  | [] => ""
  | [x] => jsonStringify x
  | x :: rest => jsonStringify x ++ "," ++ stringifyElems rest

/-- Comma-separated stringification of object members. -/
def stringifyFields : List (String × Json) → String
  | [] => ""
  | [(k, v)] => quoteJsonString k ++ ":" ++ jsonStringify v
  | (k, v) :: rest => quoteJsonString k ++ ":" ++ jsonStringify v ++ "," ++ stringifyFields rest

end

mutual

/-- JavaScript string coercion `String(v)` of a dynamic value, as used by
`Array.prototype.join`.  Fidelity note: a nested object renders as
`[object Object]` and a nested array as its comma-joined elements. -/
def jsToString : Json → String
  | .null => "null"
  | .bool true => "true"
  | .bool false => "false"
  | .num n => toString n
  | .str s => s
  | .arr xs => jsToStringJoin xs
  | .obj _ => "[object Object]"

/-- Comma-joined coercion of array elements. -/
def jsToStringJoin : List Json → String
  | [] => ""
  | [x] => jsToString x
  | x :: rest => jsToString x ++ "," ++ jsToStringJoin rest

end

/-! Embedding of `src/app/core/utils/jwt.util.ts`. -/

/-- Character-level model of `String.prototype.split` with the one-character
separator used by `decodeJwtToken` (`token.split('.')`). -/
def splitOnDot : List Char → List (List Char)
  | [] => [[]]
  | c :: rest =>
    let r := splitOnDot rest
    if c = '.' then [] :: r
    else
      match r with
      | seg :: segs => (c :: seg) :: segs
      | [] => [[c]]

/-- Port of `decodeJwtToken`: take the middle dot-separated segment, turn the
base64url alphabet into the base64 one, decode with `atob`, percent-decode as
UTF-8, and parse the result as JSON; every failure in that chain is caught
and turned into `null` (`none`). -/
def decodeJwtToken (token : String) : Option Json :=
  match (splitOnDot token.data).drop 1 with
  | [] => none
  | seg :: _ =>
    if seg.isEmpty then none
    else
      let base64 := seg.map (fun c => if c = '-' then '+' else if c = '_' then '/' else c)
      match atob (String.mk base64) with
      | none => none
      | some bytes =>
        match utf8Decode bytes with
        | none => none
        | some chars => jsonParse (String.mk chars)

/-- Port of `getUserRole`: `payload?.role || null` after decoding, with a
falsy-token guard. -/
def getUserRole (token : Option String) : Option Json :=
  if (token.getD "") = "" then none
  else truthyOrNull (optChainField (decodeJwtToken (token.getD "")) "role")

/-- Port of `isAdmin`: strict comparison of the extracted role against the
literals `Admin` and `admin`. -/
def isAdmin (token : Option String) : Bool :=
  let role := getUserRole token
  jsStrictEqStr role "Admin" || jsStrictEqStr role "admin"

/-- Port of `getUserId`: first truthy claim among `id`, `nameid`, `sub`,
`userId`, `user_id`, else `null`, with a falsy-token guard. -/
def getUserId (token : Option String) : Option Json :=
  if (token.getD "") = "" then none
  else
    let payload := decodeJwtToken (token.getD "")
    jsOr (optChainField payload "id")
      (jsOr (optChainField payload "nameid")
        (jsOr (optChainField payload "sub")
          (jsOr (optChainField payload "userId")
            (truthyOrNull (optChainField payload "user_id")))))

/-! Embedding of `src/app/auth/services/auth.service.ts` (the session
manager).  Storage (two `localStorage` token entries plus the expiry cookie),
the single `refreshTimer` field, and the set of live `setTimeout` tasks are
gathered in one state record.  Asynchronous observables are split into their
synchronous start (guard checks and issuing the HTTP request) and their
resolution handlers (the `tap` and `catchError` callbacks), which become
separate transitions of the machine.  Times are epoch milliseconds as
integers. -/

/-- Server reply to `/Auth` and `/Auth/refresh`.  Only the fields the session
manager reads are modelled (`id`, `email`, names and
`refreshTokenExpiration` are never consulted by it); `expiresIn` is the
access-token lifetime in seconds. -/
structure AuthResponse where
  token : String
  refreshToken : String
  expiresIn : Int
deriving DecidableEq

/-- Stored value of the `tokenExpiration` cookie: an ISO timestamp that
parses back to the given epoch-milliseconds instant, or junk on which
`new Date(str)` yields `NaN`. -/
inductive CookieVal where
  | iso (ms : Int)
  | junk
deriving DecidableEq

/-- State owned by `AuthService`: the two `localStorage` entries, the expiry
cookie, the `refreshTimer` field, the live (armed, not yet fired, not yet
cancelled) `setTimeout` tasks as handle/delay pairs, and a fresh-handle
counter.  Browser timer handles are positive integers, so allocation starts
at 1. -/
structure SessionState where
  accessToken : Option String
  refreshToken : Option String
  tokenExpiration : Option CookieVal
  refreshTimer : Option Nat
  liveTimers : List (Nat × Int)
  nextHandle : Nat
deriving DecidableEq

/-- HTTP requests the session manager can issue, with their payload token
pair. -/
inductive NetReq where
  | refreshReq (tok rtok : String)
  | revokeReq (tok rtok : String)
deriving DecidableEq

/-- Synchronous outcome of calling `refreshAccessToken`. -/
inductive RefreshStartResult where
  | noCredential
  | requested
deriving DecidableEq

/-- Synchronous outcome of calling `revokeRefreshToken`. -/
inductive RevokeStartResult where
  | immediateSuccess
  | requested
deriving DecidableEq

/-- JavaScript falsiness of a nullable string (`null`, `undefined` and the
empty string are falsy). -/
def jsFalsyStr (v : Option String) : Bool := v.getD "" = ""

/-- Port of the `accessToken` setter: a truthy value is stored, a falsy one
(`null` or the empty string) removes the entry. -/
def setAccessToken (s : SessionState) (v : Option String) : SessionState :=
  if jsFalsyStr v then { s with accessToken := none } else { s with accessToken := v }

/-- Port of the `refreshToken` setter, with the same falsy-removal rule. -/
def setRefreshTokenValue (s : SessionState) (v : Option String) : SessionState :=
  if jsFalsyStr v then { s with refreshToken := none } else { s with refreshToken := v }

/-- Port of `isAuthenticated`: double-negation of the stored access token. -/
def isAuthenticated (s : SessionState) : Bool := !(jsFalsyStr s.accessToken)

/-- Browser `clearTimeout h`: the task with that handle, if still live,
stops being live. -/
def clearTimeoutTask (s : SessionState) (h : Nat) : SessionState :=
  { s with liveTimers := s.liveTimers.filter (fun p => p.1 ≠ h) }

/-- Port of `clearRefreshTimer`: cancel the tracked timer, if any, and null
the field. -/
def clearRefreshTimer (s : SessionState) : SessionState :=
  match s.refreshTimer with
  | some h => { clearTimeoutTask s h with refreshTimer := none }
  | none => s

/-- Port of `clearTokens`: null both token setters, delete the expiry
cookie, and cancel the timer. -/
def clearTokens (s : SessionState) : SessionState :=
  let s1 := setAccessToken s none
  let s2 := setRefreshTokenValue s1 none
  clearRefreshTimer { s2 with tokenExpiration := none }

/-- Port of `storeTokenExpiration`: write the instant `now + expiresIn`
seconds as an ISO string into a cookie whose own expiry is that same
instant; the browser immediately discards a cookie whose expiry is not in
the future, so a non-positive lifetime leaves no cookie. -/
def storeTokenExpiration (s : SessionState) (expiresIn now : Int) : SessionState :=
  if 0 < expiresIn * 1000 then
    { s with tokenExpiration := some (.iso (now + expiresIn * 1000)) }
  else
    { s with tokenExpiration := none }

/-- Port of `getTokenExpiration`: the parsed cookie instant, or `none` when
the cookie is absent or does not parse as a date. -/
def getTokenExpiration (s : SessionState) : Option Int :=
  match s.tokenExpiration with
  | some (.iso ms) => some ms
  | some .junk => none
  | none => none

/-- Synchronous part of `refreshAccessToken`: read both stored tokens, fail
with the no-credential error when either is falsy (issuing nothing), else
POST `/Auth/refresh` with the provided payload or the current tokens.  The
stored state is not touched. -/
def refreshAccessTokenStart (s : SessionState) (payload : Option (String × String)) :
    SessionState × List NetReq × RefreshStartResult :=
  if jsFalsyStr s.accessToken || jsFalsyStr s.refreshToken then
    (s, [], .noCredential)
  else
    let pl := payload.getD (s.accessToken.getD "", s.refreshToken.getD "")
    (s, [.refreshReq pl.1 pl.2], .requested)

/-- Port of `scheduleTokenRefresh`: cancel any existing timer, compute
`max 0 ((expiresIn - 10) * 1000)` milliseconds, and either start an
immediate refresh (when the clamped delay is zero) or arm a fresh timer
tracked in `refreshTimer`. -/
def scheduleTokenRefresh (s : SessionState) (expiresIn : Int) : SessionState × List NetReq :=
  let s1 := clearRefreshTimer s
  let refreshInMs := max 0 ((expiresIn - 10) * 1000)
  if refreshInMs ≤ 0 then
    let r := refreshAccessTokenStart s1 none
    (r.1, r.2.1)
  else
    let armed : SessionState :=
      { s1 with
          liveTimers := s1.liveTimers ++ [(s1.nextHandle, refreshInMs)],
          refreshTimer := some s1.nextHandle,
          nextHandle := s1.nextHandle + 1 }
    (armed, [])

/-- Shared `tap` callback of `login` and `refreshAccessToken` on a
successful response: store both tokens, persist the expiry, and (re)schedule
the refresh. -/
def applyAuthResponse (s : SessionState) (r : AuthResponse) (now : Int) :
    SessionState × List NetReq :=
  let s1 := setAccessToken s (some r.token)
  let s2 := setRefreshTokenValue s1 (some r.refreshToken)
  let s3 := storeTokenExpiration s2 r.expiresIn now
  scheduleTokenRefresh s3 r.expiresIn

/-- The `tap` of `login` on a successful response. -/
def loginOnSuccess (s : SessionState) (r : AuthResponse) (now : Int) :
    SessionState × List NetReq :=
  applyAuthResponse s r now

/-- The `tap` of `refreshAccessToken` on a successful response. -/
def refreshAccessTokenOnSuccess (s : SessionState) (r : AuthResponse) (now : Int) :
    SessionState × List NetReq :=
  applyAuthResponse s r now

/-- The `catchError` of `refreshAccessToken`: clear the tokens, cancel the
timer, and re-emit the error to the subscriber (the `true` flag records the
re-thrown error). -/
def refreshAccessTokenOnError (s : SessionState) : SessionState × Bool :=
  (clearRefreshTimer (clearTokens s), true)

/-- Synchronous part of `revokeRefreshToken`: when either stored token is
falsy the observable completes successfully at once without any HTTP call;
otherwise POST `/Auth/revoke-refresh-token` with the provided payload or the
current tokens. -/
def revokeRefreshTokenStart (s : SessionState) (payload : Option (String × String)) :
    SessionState × List NetReq × RevokeStartResult :=
  if jsFalsyStr s.accessToken || jsFalsyStr s.refreshToken then
    (s, [], .immediateSuccess)
  else
    let pl := payload.getD (s.accessToken.getD "", s.refreshToken.getD "")
    (s, [.revokeReq pl.1 pl.2], .requested)

/-- The `tap` of `revokeRefreshToken` on a successful response: clear
tokens and timer. -/
def revokeRefreshTokenOnSuccess (s : SessionState) : SessionState :=
  clearRefreshTimer (clearTokens s)

/-- The `catchError` of `revokeRefreshToken`: re-throw the error, leaving
the state untouched (the `true` flag records the re-thrown error). -/
def revokeRefreshTokenOnError (s : SessionState) : SessionState × Bool :=
  (s, true)

/-- Port of `logout`: capture the current tokens, clear tokens and timer
synchronously, then — when both captured tokens were truthy — call
`revokeRefreshToken` with them, mapping any failure of that call to success.
The third component is the result the subscriber observes synchronously:
`some true` for an immediate successful completion, `none` when a revoke
request was actually issued and the observable is still pending (its
eventual value would again be success through the `catchError`). -/
def logout (s : SessionState) : SessionState × List NetReq × Option Bool :=
  let currentToken := s.accessToken
  let currentRefresh := s.refreshToken
  let s1 := clearRefreshTimer (clearTokens s)
  if !(jsFalsyStr currentToken) && !(jsFalsyStr currentRefresh) then
    let r := revokeRefreshTokenStart s1 (some (currentToken.getD "", currentRefresh.getD ""))
    match r.2.2 with
    | .immediateSuccess => (r.1, r.2.1, some true)
    | .requested => (r.1, r.2.1, none)
  else
    (s1, [], some true)

/-- Port of `initializeTokenRefresh`: nothing without a token; nothing
without a readable expiry; an immediate refresh attempt when the stored
expiry has elapsed (in whole floored seconds); otherwise schedule for the
remaining seconds. -/
def initializeTokenRefresh (s : SessionState) (now : Int) : SessionState × List NetReq :=
  if !(isAuthenticated s) then (s, [])
  else
    match getTokenExpiration s with
    | none => (s, [])
    | some expMs =>
      let expiresInSeconds := Int.fdiv (expMs - now) 1000
      if expiresInSeconds ≤ 0 then
        let r := refreshAccessTokenStart s none
        (r.1, r.2.1)
      else
        scheduleTokenRefresh s expiresInSeconds

/-- A live timer with handle `h` fires: it stops being live (the
`refreshTimer` field keeps the stale handle, as in the source) and its
callback calls `refreshAccessToken().subscribe(...)`. -/
def timerFire (s : SessionState) (h : Nat) : SessionState × List NetReq :=
  if s.liveTimers.any (fun p => p.1 = h) then
    let s1 : SessionState := { s with liveTimers := s.liveTimers.filter (fun p => p.1 ≠ h) }
    let r := refreshAccessTokenStart s1 none
    (r.1, r.2.1)
  else (s, [])

/-- External events driving the session manager: resolutions of the three
network calls, direct method calls, timer firings, and service
destruction. -/
inductive Op where
  | loginOk (r : AuthResponse) (now : Int)
  | loginErr
  | refreshCall (payload : Option (String × String))
  | refreshOk (r : AuthResponse) (now : Int)
  | refreshErr
  | revokeCall (payload : Option (String × String))
  | revokeOk
  | revokeErr
  | logoutCall
  | clearTokensCall
  | initRefresh (now : Int)
  | timerFires (h : Nat)
  | destroy
deriving DecidableEq

/-- One transition of the session manager. -/
def step (s : SessionState) (op : Op) : SessionState × List NetReq :=
  match op with
  | .loginOk r now => loginOnSuccess s r now
  | .loginErr => (s, [])
  | .refreshCall p =>
      let r := refreshAccessTokenStart s p
      (r.1, r.2.1)
  | .refreshOk r now => refreshAccessTokenOnSuccess s r now
  | .refreshErr => ((refreshAccessTokenOnError s).1, [])
  | .revokeCall p =>
      let r := revokeRefreshTokenStart s p
      (r.1, r.2.1)
  | .revokeOk => (revokeRefreshTokenOnSuccess s, [])
  | .revokeErr => ((revokeRefreshTokenOnError s).1, [])
  | .logoutCall =>
      let r := logout s
      (r.1, r.2.1)
  | .clearTokensCall => (clearTokens s, [])
  | .initRefresh now => initializeTokenRefresh s now
  | .timerFires h => timerFire s h
  | .destroy => (clearRefreshTimer s, [])

/-- Empty session at process start. -/
def initState : SessionState :=
  { accessToken := none, refreshToken := none, tokenExpiration := none,
    refreshTimer := none, liveTimers := [], nextHandle := 1 }

/-- Run a sequence of events from the empty session. -/
def runOps (ops : List Op) : SessionState :=
  ops.foldl (fun s op => (step s op).1) initState

/-- Invariant: at most one live timer, and a live timer is exactly the one
tracked in `refreshTimer`. -/
def timerInvB (s : SessionState) : Bool :=
  match s.liveTimers with
  | [] => true
  | [p] => s.refreshTimer = some p.1
  | _ :: _ :: _ => false

/-- Invariant: the two token entries are either both present or both
absent. -/
def tokensTogether (s : SessionState) : Bool :=
  s.accessToken.isSome == s.refreshToken.isSome

/-- Delays (in milliseconds) of the live timers. -/
def liveDelays (s : SessionState) : List Int :=
  s.liveTimers.map (fun p => p.2)

/-- Invariant: no stored token is the empty string. -/
def tokensNeverEmptyB (s : SessionState) : Bool :=
  decide (s.accessToken ≠ some "") && decide (s.refreshToken ≠ some "")

/-- A response whose `token` and `refreshToken` fields are both empty or
both non-empty. -/
def respAligned (r : AuthResponse) : Prop := r.token = "" ↔ r.refreshToken = ""

/-- Events whose responses are aligned in the sense of `respAligned`. -/
def opAligned : Op → Prop
  | .loginOk r _ => respAligned r
  | .refreshOk r _ => respAligned r
  | _ => True

/-! Embedding of `src/app/core/interceptors/error.interceptor.ts`. -/

/-- Whether `pat` occurs as a contiguous substring of `l`. -/
def infixOfB (pat : List Char) : List Char → Bool
  | [] => pat.isEmpty
  | c :: rest => pat.isPrefixOf (c :: rest) || infixOfB pat rest

/-- Case-insensitive (ASCII) substring test, as `text.toLowerCase()`
followed by `.includes(pat)` with an already-lowercase pattern. -/
def lowerIncludes (text : String) (pat : String) : Bool :=
  infixOfB pat.data (text.data.map Char.toLower)

/-- The `errorText` assembled by `extractErrorMessages` from the response
body (`error.error`, stringified unless already a string) and the
`HttpErrorResponse.message`. -/
def errorTextOf (body : Json) (respMessage : String) : String :=
  let t1 :=
    if jsTruthy body then
      match body with
      | .str s => s
      | _ => jsonStringify body
    else ""
  if respMessage ≠ "" then t1 ++ " " ++ respMessage else t1

/-- The permission-keyword scan of `extractErrorMessages`. -/
def permissionKeywordHit (text : String) : Bool :=
  lowerIncludes text "unauthorizedaccessexception" ||
  lowerIncludes text "permission denied" ||
  lowerIncludes text "access to the path" ||
  lowerIncludes text "access denied" ||
  (lowerIncludes text "ioexception" && lowerIncludes text "permission")

/-- The fixed message pushed when the permission-keyword scan hits. -/
def permissionErrorMessage : String :=
  "Unable to upload image: Server permission error. The server cannot write to the images directory. Please contact support."

/-- Property read defaulting to `null`, so that JavaScript truthiness can be
asked of a possibly-missing field. -/
def fieldOr (v : Json) (k : String) : Json :=
  (getField v k).getD .null

/-- Port of `extractErrorMessages` (the interceptor always passes the full
`HttpErrorResponse`, so the `if (errorResponse)` guard is always taken):
first the permission-keyword scan over body and message, then the early
return on a falsy body, then the `errors` field (string-array case takes the
last element when it is a truthy string; object case collects the truthy
strings of every array-valued field in key order), then the `title` /
`message` fallback. -/
def extractErrorMessages (apiError : Json) (respMessage : String) : List Json :=
  if permissionKeywordHit (errorTextOf apiError respMessage) then
    [.str permissionErrorMessage]
  else if !(jsTruthy apiError) then []
  else
    let errsV := fieldOr apiError "errors"
    let fromErrors : List Json :=
      if jsTruthy errsV then
        match errsV with
        | .arr elems =>
          (match elems.getLast? with
           | some (.str s) => if s ≠ "" then [.str s] else []
           | _ => [])
        | .obj fields =>
          (fields.map (fun p =>
            match p.2 with
            | .arr errs =>
                errs.filterMap (fun er =>
                  match er with
                  | .str s => if s ≠ "" then some (Json.str s) else none
                  | _ => none)
            | _ => [])).flatten
        | _ => []
      else []
    if fromErrors.length > 0 then fromErrors
    else if jsTruthy (fieldOr apiError "title") then [fieldOr apiError "title"]
    else if jsTruthy (fieldOr apiError "message") then [fieldOr apiError "message"]
    else []

/-- The coercing join of `Array.prototype.join` with separator `; `. -/
def joinWithSemicolon : List Json → String
  | [] => ""
  | [m] => jsToString m
  | m :: rest => jsToString m ++ "; " ++ joinWithSemicolon rest

/-- Port of `formatErrorMessage`: default text for no messages, the single
message as-is, otherwise a semicolon join. -/
def formatErrorMessage (messages : List Json) : String :=
  match messages with
  | [] => "An unexpected error occurred"
  | [m] => jsToString m
  | m :: rest => joinWithSemicolon (m :: rest)

/-- The slice of `HttpErrorResponse` the interceptor reads: the status, the
status text, the response body (`error.error`; `Json.null` when there is no
body), the transport-level `message`, and — when the failure was
client-side — the `ErrorEvent` message. -/
structure HttpErrResp where
  status : Int
  statusText : String
  body : Json
  message : String
  clientEventMessage : Option String

/-- Observable effects of one interceptor invocation: whether
`authService.clearTokens()`, `accountService.clearProfile()` and the
navigation to `/auth/login` ran, and the toast text shown. -/
structure InterceptorOutcome where
  clearedTokens : Bool
  clearedProfile : Bool
  navigatedToLogin : Bool
  toast : String
deriving DecidableEq

/-- Port of the `errorInterceptor` `catchError` callback.  Besides the
effect record it returns the session state after the invocation, applying
`clearTokens` exactly where the source calls it. -/
def errorInterceptor (err : HttpErrResp) (s : SessionState) :
    InterceptorOutcome × SessionState :=
  match err.clientEventMessage with
  | some m =>
      ({ clearedTokens := false, clearedProfile := false, navigatedToLogin := false,
         toast := if m ≠ "" then m else "A client-side error occurred" }, s)
  | none =>
    let apiError := err.body
    let errorMessages := extractErrorMessages apiError err.message
    if errorMessages.length > 0 then
      (⟨false, false, false, formatErrorMessage errorMessages⟩, s)
    else if err.status = 0 then
      (⟨false, false, false,
        "Unable to connect to the server. Please check your connection."⟩, s)
    else if err.status = 401 then
      (⟨true, true, true,
        if errorMessages.length > 0 then formatErrorMessage errorMessages
        else "Your session has expired. Please login again."⟩,
       clearTokens s)
    else if err.status = 403 then
      (⟨false, false, false,
        if errorMessages.length > 0 then formatErrorMessage errorMessages
        else "You do not have permission to perform this action."⟩, s)
    else if err.status = 404 then
      (⟨false, false, false,
        if errorMessages.length > 0 then formatErrorMessage errorMessages
        else "The requested resource was not found."⟩, s)
    else if err.status = 409 then
      (⟨false, false, false,
        if errorMessages.length > 0 then formatErrorMessage errorMessages
        else "A conflict occurred. Please try again."⟩, s)
    else if err.status = 500 then
      (⟨false, false, false,
        if errorMessages.length > 0 &&
            infixOfB "permission".data (jsToString (errorMessages.headD .null)).data then
          formatErrorMessage errorMessages
        else if errorMessages.length > 0 then formatErrorMessage errorMessages
        else "A server error occurred. Please try again later."⟩, s)
    else
      (⟨false, false, false,
        if errorMessages.length > 0 then formatErrorMessage errorMessages
        else if err.message ≠ "" then err.message
        else "Error " ++ toString err.status ++ ": " ++ err.statusText⟩, s)

/-! Helper lemmas. -/

theorem refreshStart_state (s : SessionState) (p : Option (String × String)) :
    (refreshAccessTokenStart s p).1 = s := by
  unfold refreshAccessTokenStart
  split <;> rfl

theorem revokeStart_state (s : SessionState) (p : Option (String × String)) :
    (revokeRefreshTokenStart s p).1 = s := by
  unfold revokeRefreshTokenStart
  split <;> rfl

theorem setAccessToken_liveTimers (s : SessionState) (v : Option String) :
    (setAccessToken s v).liveTimers = s.liveTimers := by
  unfold setAccessToken
  split <;> rfl

theorem setAccessToken_refreshTimer (s : SessionState) (v : Option String) :
    (setAccessToken s v).refreshTimer = s.refreshTimer := by
  unfold setAccessToken
  split <;> rfl

theorem setAccessToken_refreshToken (s : SessionState) (v : Option String) :
    (setAccessToken s v).refreshToken = s.refreshToken := by
  unfold setAccessToken
  split <;> rfl

theorem setAccessToken_nextHandle (s : SessionState) (v : Option String) :
    (setAccessToken s v).nextHandle = s.nextHandle := by
  unfold setAccessToken
  split <;> rfl

theorem setRefreshTokenValue_liveTimers (s : SessionState) (v : Option String) :
    (setRefreshTokenValue s v).liveTimers = s.liveTimers := by
  unfold setRefreshTokenValue
  split <;> rfl

theorem setRefreshTokenValue_refreshTimer (s : SessionState) (v : Option String) :
    (setRefreshTokenValue s v).refreshTimer = s.refreshTimer := by
  unfold setRefreshTokenValue
  split <;> rfl

theorem setRefreshTokenValue_accessToken (s : SessionState) (v : Option String) :
    (setRefreshTokenValue s v).accessToken = s.accessToken := by
  unfold setRefreshTokenValue
  split <;> rfl

theorem setRefreshTokenValue_nextHandle (s : SessionState) (v : Option String) :
    (setRefreshTokenValue s v).nextHandle = s.nextHandle := by
  unfold setRefreshTokenValue
  split <;> rfl

theorem storeTokenExpiration_liveTimers (s : SessionState) (e now : Int) :
    (storeTokenExpiration s e now).liveTimers = s.liveTimers := by
  unfold storeTokenExpiration
  split <;> rfl

theorem storeTokenExpiration_refreshTimer (s : SessionState) (e now : Int) :
    (storeTokenExpiration s e now).refreshTimer = s.refreshTimer := by
  unfold storeTokenExpiration
  split <;> rfl

theorem storeTokenExpiration_accessToken (s : SessionState) (e now : Int) :
    (storeTokenExpiration s e now).accessToken = s.accessToken := by
  unfold storeTokenExpiration
  split <;> rfl

theorem storeTokenExpiration_refreshToken (s : SessionState) (e now : Int) :
    (storeTokenExpiration s e now).refreshToken = s.refreshToken := by
  unfold storeTokenExpiration
  split <;> rfl

theorem storeTokenExpiration_nextHandle (s : SessionState) (e now : Int) :
    (storeTokenExpiration s e now).nextHandle = s.nextHandle := by
  unfold storeTokenExpiration
  split <;> rfl

theorem clearRefreshTimer_accessToken (s : SessionState) :
    (clearRefreshTimer s).accessToken = s.accessToken := by
  unfold clearRefreshTimer clearTimeoutTask
  cases s.refreshTimer <;> rfl

theorem clearRefreshTimer_refreshToken (s : SessionState) :
    (clearRefreshTimer s).refreshToken = s.refreshToken := by
  unfold clearRefreshTimer clearTimeoutTask
  cases s.refreshTimer <;> rfl

theorem clearRefreshTimer_tokenExpiration (s : SessionState) :
    (clearRefreshTimer s).tokenExpiration = s.tokenExpiration := by
  unfold clearRefreshTimer clearTimeoutTask
  cases s.refreshTimer <;> rfl

theorem clearRefreshTimer_nextHandle (s : SessionState) :
    (clearRefreshTimer s).nextHandle = s.nextHandle := by
  unfold clearRefreshTimer clearTimeoutTask
  cases s.refreshTimer <;> rfl

theorem timerInvB_eq_of (a b : SessionState) (h1 : a.liveTimers = b.liveTimers)
    (h2 : a.refreshTimer = b.refreshTimer) : timerInvB a = timerInvB b := by
  unfold timerInvB
  rw [h1, h2]

theorem timerInvB_of_nil (s : SessionState) (h : s.liveTimers = []) :
    timerInvB s = true := by
  unfold timerInvB
  rw [h]

/-- Under the timer invariant, cancelling the tracked timer leaves no live
timer at all and a nulled field. -/
theorem clearRefreshTimer_clears (s : SessionState) (h : timerInvB s = true) :
    (clearRefreshTimer s).liveTimers = [] ∧ (clearRefreshTimer s).refreshTimer = none := by
  unfold timerInvB at h
  cases hl : s.liveTimers with
  | nil =>
    cases hr : s.refreshTimer with
    | none => simp [clearRefreshTimer, hr, hl]
    | some hdl => simp [clearRefreshTimer, clearTimeoutTask, hr, hl]
  | cons p rest =>
    cases rest with
    | nil =>
      rw [hl] at h
      simp only [decide_eq_true_eq] at h
      simp [clearRefreshTimer, clearTimeoutTask, h, hl]
    | cons q rest2 =>
      rw [hl] at h
      simp at h

theorem clearTokens_fields (s : SessionState) (h : timerInvB s = true) :
    (clearTokens s).accessToken = none ∧ (clearTokens s).refreshToken = none ∧
    (clearTokens s).tokenExpiration = none ∧ (clearTokens s).liveTimers = [] ∧
    (clearTokens s).refreshTimer = none := by
  unfold clearTokens
  have h2 : timerInvB { setRefreshTokenValue (setAccessToken s none) none with
      tokenExpiration := none } = true := by
    rw [timerInvB_eq_of _ s]
    · exact h
    · rw [show ({ setRefreshTokenValue (setAccessToken s none) none with
          tokenExpiration := none } : SessionState).liveTimers
          = (setRefreshTokenValue (setAccessToken s none) none).liveTimers from rfl,
        setRefreshTokenValue_liveTimers, setAccessToken_liveTimers]
    · rw [show ({ setRefreshTokenValue (setAccessToken s none) none with
          tokenExpiration := none } : SessionState).refreshTimer
          = (setRefreshTokenValue (setAccessToken s none) none).refreshTimer from rfl,
        setRefreshTokenValue_refreshTimer, setAccessToken_refreshTimer]
  refine ⟨?_, ?_, ?_, (clearRefreshTimer_clears _ h2).1, (clearRefreshTimer_clears _ h2).2⟩
  · rw [clearRefreshTimer_accessToken]
    show (setRefreshTokenValue (setAccessToken s none) none).accessToken = none
    rw [setRefreshTokenValue_accessToken]
    rfl
  · rw [clearRefreshTimer_refreshToken]
    rfl
  · rw [clearRefreshTimer_tokenExpiration]

/-- With a lifetime of at most ten seconds the scheduler cancels the timer
and at once invokes the refresh call (which leaves the state as cancelled
and may issue a request). -/
theorem scheduleTokenRefresh_of_le (s : SessionState) (e : Int) (h : e ≤ 10) :
    scheduleTokenRefresh s e =
      (clearRefreshTimer s, (refreshAccessTokenStart (clearRefreshTimer s) none).2.1) := by
  have hc : max 0 ((e - 10) * 1000) ≤ 0 := max_le (le_refl 0) (by omega)
  simp only [scheduleTokenRefresh, hc, if_true, ite_true, refreshStart_state]

/-- With a lifetime above ten seconds the scheduler cancels the timer and
arms a fresh one for `(e - 10) * 1000` milliseconds, issuing nothing. -/
theorem scheduleTokenRefresh_of_gt (s : SessionState) (e : Int) (h : 10 < e) :
    scheduleTokenRefresh s e =
      ({ clearRefreshTimer s with
          liveTimers := (clearRefreshTimer s).liveTimers ++
            [((clearRefreshTimer s).nextHandle, (e - 10) * 1000)],
          refreshTimer := some (clearRefreshTimer s).nextHandle,
          nextHandle := (clearRefreshTimer s).nextHandle + 1 }, []) := by
  have h1 : (0 : Int) < (e - 10) * 1000 := by omega
  have hmax : max 0 ((e - 10) * 1000) = (e - 10) * 1000 := max_eq_right (le_of_lt h1)
  have hc : ¬ (max 0 ((e - 10) * 1000) ≤ 0) := by
    rw [hmax]
    omega
  have hc2 : ¬ ((e - 10) * 1000 ≤ 0) := by omega
  simp only [scheduleTokenRefresh, hc, hc2, if_false, ite_false, hmax]

/-- Full behavior of the scheduler under the timer invariant: the old timer
is gone; a lifetime over ten seconds arms exactly one timer for
`(expiresIn - 10) * 1000` milliseconds with no request; a lifetime of at
most ten seconds arms nothing and at once invokes the refresh call, which
issues a request exactly when both stored tokens are truthy. -/
theorem scheduleTokenRefresh_spec (s : SessionState) (e : Int) (h : timerInvB s = true) :
    (scheduleTokenRefresh s e).1.accessToken = s.accessToken ∧
    (scheduleTokenRefresh s e).1.refreshToken = s.refreshToken ∧
    (scheduleTokenRefresh s e).1.tokenExpiration = s.tokenExpiration ∧
    timerInvB (scheduleTokenRefresh s e).1 = true ∧
    (10 < e →
      (scheduleTokenRefresh s e).1.liveTimers = [(s.nextHandle, (e - 10) * 1000)] ∧
      (scheduleTokenRefresh s e).2 = []) ∧
    (e ≤ 10 →
      (scheduleTokenRefresh s e).1.liveTimers = [] ∧
      (scheduleTokenRefresh s e).2 =
        (refreshAccessTokenStart (clearRefreshTimer s) none).2.1) := by
  obtain ⟨hl, hr⟩ := clearRefreshTimer_clears s h
  by_cases he : e ≤ 10
  · rw [scheduleTokenRefresh_of_le s e he]
    refine ⟨clearRefreshTimer_accessToken s, clearRefreshTimer_refreshToken s,
      clearRefreshTimer_tokenExpiration s, timerInvB_of_nil _ hl, ?_, ?_⟩
    · intro hgt
      omega
    · intro _
      exact ⟨hl, rfl⟩
  · have hgt : 10 < e := by omega
    rw [scheduleTokenRefresh_of_gt s e hgt]
    refine ⟨clearRefreshTimer_accessToken s, clearRefreshTimer_refreshToken s,
      clearRefreshTimer_tokenExpiration s, ?_, ?_, ?_⟩
    · unfold timerInvB
      simp [hl]
    · intro _
      rw [hl, clearRefreshTimer_nextHandle]
      exact ⟨rfl, rfl⟩
    · intro hle
      omega

/-- The timer invariant is preserved by every transition of the session
manager. -/
theorem timerInv_step (s : SessionState) (op : Op) (h : timerInvB s = true) :
    timerInvB (step s op).1 = true := by
  cases op with
  | loginOk r now =>
    show timerInvB (applyAuthResponse s r now).1 = true
    unfold applyAuthResponse
    have h3 : timerInvB (storeTokenExpiration
        (setRefreshTokenValue (setAccessToken s (some r.token)) (some r.refreshToken))
        r.expiresIn now) = true := by
      rw [timerInvB_eq_of _ s]
      · exact h
      · rw [storeTokenExpiration_liveTimers, setRefreshTokenValue_liveTimers,
          setAccessToken_liveTimers]
      · rw [storeTokenExpiration_refreshTimer, setRefreshTokenValue_refreshTimer,
          setAccessToken_refreshTimer]
    exact (scheduleTokenRefresh_spec _ _ h3).2.2.2.1
  | loginErr => exact h
  | refreshCall p =>
    show timerInvB (refreshAccessTokenStart s p).1 = true
    rw [refreshStart_state]
    exact h
  | refreshOk r now =>
    show timerInvB (applyAuthResponse s r now).1 = true
    unfold applyAuthResponse
    have h3 : timerInvB (storeTokenExpiration
        (setRefreshTokenValue (setAccessToken s (some r.token)) (some r.refreshToken))
        r.expiresIn now) = true := by
      rw [timerInvB_eq_of _ s]
      · exact h
      · rw [storeTokenExpiration_liveTimers, setRefreshTokenValue_liveTimers,
          setAccessToken_liveTimers]
      · rw [storeTokenExpiration_refreshTimer, setRefreshTokenValue_refreshTimer,
          setAccessToken_refreshTimer]
    exact (scheduleTokenRefresh_spec _ _ h3).2.2.2.1
  | refreshErr =>
    show timerInvB (clearRefreshTimer (clearTokens s)) = true
    have := (clearTokens_fields s h).2.2.2.1
    exact timerInvB_of_nil _ (by rw [clearRefreshTimer_clears (clearTokens s)
      (timerInvB_of_nil _ this) |>.1])
  | revokeCall p =>
    show timerInvB (revokeRefreshTokenStart s p).1 = true
    rw [revokeStart_state]
    exact h
  | revokeOk =>
    show timerInvB (clearRefreshTimer (clearTokens s)) = true
    have := (clearTokens_fields s h).2.2.2.1
    exact timerInvB_of_nil _ (by rw [clearRefreshTimer_clears (clearTokens s)
      (timerInvB_of_nil _ this) |>.1])
  | revokeErr => exact h
  | logoutCall =>
    show timerInvB (logout s).1 = true
    have hcl := (clearTokens_fields s h).2.2.2.1
    have hinv : timerInvB (clearRefreshTimer (clearTokens s)) = true :=
      timerInvB_of_nil _ (by rw [clearRefreshTimer_clears (clearTokens s)
        (timerInvB_of_nil _ hcl) |>.1])
    simp only [logout]
    split
    · split <;> (rw [revokeStart_state]; exact hinv)
    · exact hinv
  | clearTokensCall =>
    show timerInvB (clearTokens s) = true
    exact timerInvB_of_nil _ (clearTokens_fields s h).2.2.2.1
  | initRefresh now =>
    show timerInvB (initializeTokenRefresh s now).1 = true
    simp only [initializeTokenRefresh]
    split
    · exact h
    · split
      · exact h
      · split
        · rw [refreshStart_state]
          exact h
        · exact (scheduleTokenRefresh_spec _ _ h).2.2.2.1
  | timerFires hd =>
    show timerInvB (timerFire s hd).1 = true
    simp only [timerFire]
    split
    next hany =>
      rw [refreshStart_state]
      cases hl : s.liveTimers with
      | nil =>
        rw [hl] at hany
        simp at hany
      | cons p rest =>
        cases rest with
        | nil =>
          rw [hl] at hany
          simp at hany
          apply timerInvB_of_nil
          show List.filter (fun p => decide (p.1 ≠ hd)) [p] = []
          simp [hany]
        | cons q rest2 =>
          unfold timerInvB at h
          rw [hl] at h
          simp at h
    next => exact h
  | destroy =>
    show timerInvB (clearRefreshTimer s) = true
    exact timerInvB_of_nil _ (clearRefreshTimer_clears s h).1

/-- Propagate a boolean invariant through a run, given preservation on
events satisfying a side condition. -/
theorem foldl_inv (P : SessionState → Bool) (Q : Op → Prop)
    (hstep : ∀ s op, Q op → P s = true → P (step s op).1 = true) :
    ∀ (ops : List Op) (s : SessionState), (∀ op ∈ ops, Q op) → P s = true →
      P (ops.foldl (fun t op => (step t op).1) s) = true := by
  intro ops
  induction ops with
  | nil => intro s _ hs; exact hs
  | cons op rest ih =>
    intro s hq hs
    exact ih _ (fun o ho => hq o (List.mem_cons_of_mem _ ho))
      (hstep s op (hq op (List.mem_cons_self op rest)) hs)

/-- Every reachable session state satisfies the timer invariant. -/
theorem timerInv_runOps (ops : List Op) : timerInvB (runOps ops) = true := by
  unfold runOps
  exact foldl_inv timerInvB (fun _ => True)
    (fun s op _ h => timerInv_step s op h) ops initState (fun _ _ => trivial) rfl

theorem scheduleTokenRefresh_accessToken (s : SessionState) (e : Int) :
    (scheduleTokenRefresh s e).1.accessToken = s.accessToken := by
  by_cases he : e ≤ 10
  · rw [scheduleTokenRefresh_of_le s e he]
    exact clearRefreshTimer_accessToken s
  · rw [scheduleTokenRefresh_of_gt s e (by omega)]
    exact clearRefreshTimer_accessToken s

theorem scheduleTokenRefresh_refreshToken (s : SessionState) (e : Int) :
    (scheduleTokenRefresh s e).1.refreshToken = s.refreshToken := by
  by_cases he : e ≤ 10
  · rw [scheduleTokenRefresh_of_le s e he]
    exact clearRefreshTimer_refreshToken s
  · rw [scheduleTokenRefresh_of_gt s e (by omega)]
    exact clearRefreshTimer_refreshToken s

theorem clearTokens_accessToken (s : SessionState) : (clearTokens s).accessToken = none := by
  unfold clearTokens
  rw [clearRefreshTimer_accessToken]
  show (setRefreshTokenValue (setAccessToken s none) none).accessToken = none
  rw [setRefreshTokenValue_accessToken]
  rfl

theorem clearTokens_refreshToken (s : SessionState) : (clearTokens s).refreshToken = none := by
  unfold clearTokens
  rw [clearRefreshTimer_refreshToken]
  rfl

theorem clearTokens_tokenExpiration (s : SessionState) :
    (clearTokens s).tokenExpiration = none := by
  unfold clearTokens
  rw [clearRefreshTimer_tokenExpiration]

/-- Stored tokens after the shared success `tap`: the response values, with
an empty string stored as absence. -/
theorem applyAuthResponse_tokens (s : SessionState) (r : AuthResponse) (now : Int) :
    (applyAuthResponse s r now).1.accessToken =
      (if r.token = "" then none else some r.token) ∧
    (applyAuthResponse s r now).1.refreshToken =
      (if r.refreshToken = "" then none else some r.refreshToken) := by
  unfold applyAuthResponse
  constructor
  · rw [scheduleTokenRefresh_accessToken, storeTokenExpiration_accessToken,
      setRefreshTokenValue_accessToken]
    unfold setAccessToken jsFalsyStr
    by_cases ht : r.token = "" <;> simp [ht]
  · rw [scheduleTokenRefresh_refreshToken, storeTokenExpiration_refreshToken]
    unfold setRefreshTokenValue jsFalsyStr
    by_cases ht : r.refreshToken = "" <;> simp [ht]

/-- The refresh call issues the request built from the current tokens when
both are present and non-empty (and no explicit payload is given). -/
theorem refreshStart_requested (s : SessionState) (a b : String)
    (ha : s.accessToken = some a) (hb : s.refreshToken = some b)
    (ha2 : a ≠ "") (hb2 : b ≠ "") :
    refreshAccessTokenStart s none = (s, [.refreshReq a b], .requested) := by
  unfold refreshAccessTokenStart jsFalsyStr
  rw [ha, hb]
  simp [ha2, hb2]

theorem tokensNeverEmpty_step (s : SessionState) (op : Op)
    (h : tokensNeverEmptyB s = true) : tokensNeverEmptyB (step s op).1 = true := by
  have hclear : tokensNeverEmptyB (clearRefreshTimer (clearTokens s)) = true := by
    unfold tokensNeverEmptyB
    rw [clearRefreshTimer_accessToken, clearRefreshTimer_refreshToken,
      clearTokens_accessToken, clearTokens_refreshToken]
    simp
  cases op with
  | loginOk r now =>
    show tokensNeverEmptyB (applyAuthResponse s r now).1 = true
    obtain ⟨h1, h2⟩ := applyAuthResponse_tokens s r now
    unfold tokensNeverEmptyB
    rw [h1, h2]
    by_cases ht : r.token = "" <;> by_cases hrt : r.refreshToken = "" <;> simp [ht, hrt]
  | loginErr => exact h
  | refreshCall p =>
    show tokensNeverEmptyB (refreshAccessTokenStart s p).1 = true
    rw [refreshStart_state]
    exact h
  | refreshOk r now =>
    show tokensNeverEmptyB (applyAuthResponse s r now).1 = true
    obtain ⟨h1, h2⟩ := applyAuthResponse_tokens s r now
    unfold tokensNeverEmptyB
    rw [h1, h2]
    by_cases ht : r.token = "" <;> by_cases hrt : r.refreshToken = "" <;> simp [ht, hrt]
  | refreshErr => exact hclear
  | revokeCall p =>
    show tokensNeverEmptyB (revokeRefreshTokenStart s p).1 = true
    rw [revokeStart_state]
    exact h
  | revokeOk => exact hclear
  | revokeErr => exact h
  | logoutCall =>
    show tokensNeverEmptyB (logout s).1 = true
    simp only [logout]
    split
    · split <;> (rw [revokeStart_state]; exact hclear)
    · exact hclear
  | clearTokensCall =>
    show tokensNeverEmptyB (clearTokens s) = true
    unfold tokensNeverEmptyB
    rw [clearTokens_accessToken, clearTokens_refreshToken]
    simp
  | initRefresh now =>
    show tokensNeverEmptyB (initializeTokenRefresh s now).1 = true
    simp only [initializeTokenRefresh]
    split
    · exact h
    · split
      · exact h
      · split
        · rw [refreshStart_state]
          exact h
        · unfold tokensNeverEmptyB
          rw [scheduleTokenRefresh_accessToken, scheduleTokenRefresh_refreshToken]
          exact h
  | timerFires hd =>
    show tokensNeverEmptyB (timerFire s hd).1 = true
    simp only [timerFire]
    split
    · rw [refreshStart_state]
      exact h
    · exact h
  | destroy =>
    show tokensNeverEmptyB (clearRefreshTimer s) = true
    unfold tokensNeverEmptyB
    rw [clearRefreshTimer_accessToken, clearRefreshTimer_refreshToken]
    exact h

/-- No reachable state stores an empty-string token. -/
theorem tokensNeverEmpty_runOps (ops : List Op) : tokensNeverEmptyB (runOps ops) = true := by
  unfold runOps
  exact foldl_inv tokensNeverEmptyB (fun _ => True)
    (fun s op _ h => tokensNeverEmpty_step s op h) ops initState (fun _ _ => trivial) rfl

theorem tokensTogether_step (s : SessionState) (op : Op) (hq : opAligned op)
    (h : tokensTogether s = true) : tokensTogether (step s op).1 = true := by
  have hclear : tokensTogether (clearRefreshTimer (clearTokens s)) = true := by
    unfold tokensTogether
    rw [clearRefreshTimer_accessToken, clearRefreshTimer_refreshToken,
      clearTokens_accessToken, clearTokens_refreshToken]
    rfl
  cases op with
  | loginOk r now =>
    show tokensTogether (applyAuthResponse s r now).1 = true
    obtain ⟨h1, h2⟩ := applyAuthResponse_tokens s r now
    unfold tokensTogether
    rw [h1, h2]
    have hiff : r.token = "" ↔ r.refreshToken = "" := hq
    by_cases ht : r.token = ""
    · simp [ht, hiff.mp ht]
    · have hrt : ¬ r.refreshToken = "" := fun hc => ht (hiff.mpr hc)
      simp [ht, hrt]
  | loginErr => exact h
  | refreshCall p =>
    show tokensTogether (refreshAccessTokenStart s p).1 = true
    rw [refreshStart_state]
    exact h
  | refreshOk r now =>
    show tokensTogether (applyAuthResponse s r now).1 = true
    obtain ⟨h1, h2⟩ := applyAuthResponse_tokens s r now
    unfold tokensTogether
    rw [h1, h2]
    have hiff : r.token = "" ↔ r.refreshToken = "" := hq
    by_cases ht : r.token = ""
    · simp [ht, hiff.mp ht]
    · have hrt : ¬ r.refreshToken = "" := fun hc => ht (hiff.mpr hc)
      simp [ht, hrt]
  | refreshErr => exact hclear
  | revokeCall p =>
    show tokensTogether (revokeRefreshTokenStart s p).1 = true
    rw [revokeStart_state]
    exact h
  | revokeOk => exact hclear
  | revokeErr => exact h
  | logoutCall =>
    show tokensTogether (logout s).1 = true
    simp only [logout]
    split
    · split <;> (rw [revokeStart_state]; exact hclear)
    · exact hclear
  | clearTokensCall =>
    show tokensTogether (clearTokens s) = true
    unfold tokensTogether
    rw [clearTokens_accessToken, clearTokens_refreshToken]
    rfl
  | initRefresh now =>
    show tokensTogether (initializeTokenRefresh s now).1 = true
    simp only [initializeTokenRefresh]
    split
    · exact h
    · split
      · exact h
      · split
        · rw [refreshStart_state]
          exact h
        · unfold tokensTogether
          rw [scheduleTokenRefresh_accessToken, scheduleTokenRefresh_refreshToken]
          exact h
  | timerFires hd =>
    show tokensTogether (timerFire s hd).1 = true
    simp only [timerFire]
    split
    · rw [refreshStart_state]
      exact h
    · exact h
  | destroy =>
    show tokensTogether (clearRefreshTimer s) = true
    unfold tokensTogether
    rw [clearRefreshTimer_accessToken, clearRefreshTimer_refreshToken]
    exact h

/-- Behavior of the shared success `tap` for a response carrying non-empty
tokens, under the timer invariant: authentication holds, the invariant is
preserved, and the scheduling outcome is one fresh timer for
`(expiresIn - 10) * 1000` milliseconds (lifetime over ten seconds) or an
immediate refresh request and no timer (lifetime at most ten seconds). -/
theorem applyAuthResponse_spec (s : SessionState) (r : AuthResponse) (now : Int)
    (hinv : timerInvB s = true) (ht : r.token ≠ "") (hr : r.refreshToken ≠ "") :
    isAuthenticated (applyAuthResponse s r now).1 = true ∧
    timerInvB (applyAuthResponse s r now).1 = true ∧
    (10 < r.expiresIn →
      liveDelays (applyAuthResponse s r now).1 = [(r.expiresIn - 10) * 1000] ∧
      (applyAuthResponse s r now).2 = []) ∧
    (r.expiresIn ≤ 10 →
      (applyAuthResponse s r now).1.liveTimers = [] ∧
      (applyAuthResponse s r now).2 = [.refreshReq r.token r.refreshToken]) := by
  have haccess := (applyAuthResponse_tokens s r now).1
  have hrefresh := (applyAuthResponse_tokens s r now).2
  rw [if_neg ht] at haccess
  rw [if_neg hr] at hrefresh
  have hs3 : applyAuthResponse s r now =
      scheduleTokenRefresh (storeTokenExpiration
        (setRefreshTokenValue (setAccessToken s (some r.token)) (some r.refreshToken))
        r.expiresIn now) r.expiresIn := rfl
  have hs3inv : timerInvB (storeTokenExpiration
      (setRefreshTokenValue (setAccessToken s (some r.token)) (some r.refreshToken))
      r.expiresIn now) = true := by
    rw [timerInvB_eq_of _ s]
    · exact hinv
    · rw [storeTokenExpiration_liveTimers, setRefreshTokenValue_liveTimers,
        setAccessToken_liveTimers]
    · rw [storeTokenExpiration_refreshTimer, setRefreshTokenValue_refreshTimer,
        setAccessToken_refreshTimer]
  obtain ⟨hacc2, href2, _, hinv2, hgt, hle⟩ := scheduleTokenRefresh_spec
    (storeTokenExpiration
      (setRefreshTokenValue (setAccessToken s (some r.token)) (some r.refreshToken))
      r.expiresIn now) r.expiresIn hs3inv
  refine ⟨?_, ?_, ?_, ?_⟩
  · unfold isAuthenticated jsFalsyStr
    rw [haccess]
    simp [ht]
  · rw [hs3]
    exact hinv2
  · intro h10
    obtain ⟨hl, hreq⟩ := hgt h10
    constructor
    · unfold liveDelays
      rw [hs3, hl]
      rfl
    · rw [hs3]
      exact hreq
  · intro h10
    obtain ⟨hl, hreq⟩ := hle h10
    refine ⟨by rw [hs3]; exact hl, ?_⟩
    rw [hs3, hreq]
    have ha3 : (clearRefreshTimer (storeTokenExpiration
        (setRefreshTokenValue (setAccessToken s (some r.token)) (some r.refreshToken))
        r.expiresIn now)).accessToken = some r.token := by
      rw [clearRefreshTimer_accessToken]
      rw [hs3] at haccess
      rw [← scheduleTokenRefresh_accessToken _ r.expiresIn]
      exact haccess
    have hb3 : (clearRefreshTimer (storeTokenExpiration
        (setRefreshTokenValue (setAccessToken s (some r.token)) (some r.refreshToken))
        r.expiresIn now)).refreshToken = some r.refreshToken := by
      rw [clearRefreshTimer_refreshToken]
      rw [hs3] at hrefresh
      rw [← scheduleTokenRefresh_refreshToken _ r.expiresIn]
      exact hrefresh
    rw [refreshStart_requested _ r.token r.refreshToken ha3 hb3 ht hr]

/-! Claim theorems. -/

/-- C3 (amended): at every point in every event sequence at most one refresh
timer is live; each successful login or refresh whose response carries
non-empty token fields first cancels any existing timer and then schedules
exactly one refresh to fire `lifetime - 10` seconds after issuance (an
immediate refresh request is issued instead of a timer when the lifetime is
at most 10 seconds), and after such a login `isAuthenticated()` is true.
(The non-empty-token proviso is forced: a response with an empty `token`
field is stored as absence by the falsy-guarded setter.) -/
theorem c3_single_timer_and_refresh_schedule :
    (∀ ops : List Op,
      timerInvB (runOps ops) = true ∧ (runOps ops).liveTimers.length ≤ 1) ∧
    (∀ (s : SessionState) (r : AuthResponse) (now : Int),
      timerInvB s = true → r.token ≠ "" → r.refreshToken ≠ "" →
      (isAuthenticated (step s (.loginOk r now)).1 = true ∧
        timerInvB (step s (.loginOk r now)).1 = true ∧
        (10 < r.expiresIn →
          liveDelays (step s (.loginOk r now)).1 = [(r.expiresIn - 10) * 1000] ∧
          (step s (.loginOk r now)).2 = []) ∧
        (r.expiresIn ≤ 10 →
          (step s (.loginOk r now)).1.liveTimers = [] ∧
          (step s (.loginOk r now)).2 = [.refreshReq r.token r.refreshToken])) ∧
      (isAuthenticated (step s (.refreshOk r now)).1 = true ∧
        timerInvB (step s (.refreshOk r now)).1 = true ∧
        (10 < r.expiresIn →
          liveDelays (step s (.refreshOk r now)).1 = [(r.expiresIn - 10) * 1000] ∧
          (step s (.refreshOk r now)).2 = []) ∧
        (r.expiresIn ≤ 10 →
          (step s (.refreshOk r now)).1.liveTimers = [] ∧
          (step s (.refreshOk r now)).2 = [.refreshReq r.token r.refreshToken]))) := by
  constructor
  · intro ops
    have h := timerInv_runOps ops
    refine ⟨h, ?_⟩
    unfold timerInvB at h
    cases hl : (runOps ops).liveTimers with
    | nil => simp
    | cons p rest =>
      cases rest with
      | nil => simp
      | cons q rest2 =>
        rw [hl] at h
        simp at h
  · intro s r now hinv ht hr
    exact ⟨applyAuthResponse_spec s r now hinv ht hr,
      applyAuthResponse_spec s r now hinv ht hr⟩

/-- Witness for C3 at a concrete login: a 3600-second lifetime arms exactly
one timer for 3590000 milliseconds and authentication holds. -/
theorem c3_witness :
    isAuthenticated (step initState (.loginOk ⟨"a", "r", 3600⟩ 0)).1 = true ∧
    liveDelays (step initState (.loginOk ⟨"a", "r", 3600⟩ 0)).1 = [3590000] := by
  have h := c3_single_timer_and_refresh_schedule.2 initState ⟨"a", "r", 3600⟩ 0 rfl
    (by decide) (by decide)
  exact ⟨h.1.1, ((h.1.2.2.1 (by decide)).1).trans (by decide)⟩

/-- Counterexample to C3 as stated: the claim asserts `isAuthenticated()` is
true after every successful login, but a successful login whose response
carries an empty `token` field leaves the session unauthenticated. -/
theorem c3_counterexample :
    isAuthenticated (runOps [.loginOk ⟨"", "", 3600⟩ 0]) = false := by decide

/-- C4: every failed refresh resolution clears the whole session — tokens
gone, expiry gone, no live timer, tracked handle nulled — so that
`isAuthenticated()` is false afterwards, and the error is re-emitted to the
caller. -/
theorem c4_refresh_failure_clears_session :
    ∀ s : SessionState, timerInvB s = true →
      (refreshAccessTokenOnError s).1.accessToken = none ∧
      (refreshAccessTokenOnError s).1.refreshToken = none ∧
      (refreshAccessTokenOnError s).1.tokenExpiration = none ∧
      (refreshAccessTokenOnError s).1.liveTimers = [] ∧
      (refreshAccessTokenOnError s).1.refreshTimer = none ∧
      isAuthenticated (refreshAccessTokenOnError s).1 = false ∧
      (refreshAccessTokenOnError s).2 = true := by
  intro s h
  obtain ⟨h1, h2, h3, h4, h5⟩ := clearTokens_fields s h
  have hcl := clearRefreshTimer_clears (clearTokens s) (timerInvB_of_nil _ h4)
  refine ⟨?_, ?_, ?_, hcl.1, hcl.2, ?_, rfl⟩
  · show (clearRefreshTimer (clearTokens s)).accessToken = none
    rw [clearRefreshTimer_accessToken]
    exact h1
  · show (clearRefreshTimer (clearTokens s)).refreshToken = none
    rw [clearRefreshTimer_refreshToken]
    exact h2
  · show (clearRefreshTimer (clearTokens s)).tokenExpiration = none
    rw [clearRefreshTimer_tokenExpiration]
    exact h3
  · show isAuthenticated (clearRefreshTimer (clearTokens s)) = false
    unfold isAuthenticated jsFalsyStr
    rw [clearRefreshTimer_accessToken, h1]
    rfl

/-- Witness for C4: a refresh failure right after a successful login leaves
an unauthenticated session with no live timer. -/
theorem c4_witness :
    isAuthenticated (refreshAccessTokenOnError (runOps [.loginOk ⟨"a", "r", 3600⟩ 0])).1
        = false ∧
    (refreshAccessTokenOnError (runOps [.loginOk ⟨"a", "r", 3600⟩ 0])).1.liveTimers = [] :=
  ⟨(c4_refresh_failure_clears_session (runOps [.loginOk ⟨"a", "r", 3600⟩ 0])
      (by decide)).2.2.2.2.2.1,
   (c4_refresh_failure_clears_session (runOps [.loginOk ⟨"a", "r", 3600⟩ 0])
      (by decide)).2.2.2.1⟩

/-- C5: calling refresh while either token is absent from storage fails
immediately with the no-credential error, issues no network request, and
leaves the stored state unchanged, whatever payload was passed. -/
theorem c5_refresh_without_credentials :
    ∀ (s : SessionState) (p : Option (String × String)),
      s.accessToken = none ∨ s.refreshToken = none →
      refreshAccessTokenStart s p = (s, [], .noCredential) := by
  intro s p h
  unfold refreshAccessTokenStart
  have hg : (jsFalsyStr s.accessToken || jsFalsyStr s.refreshToken) = true := by
    rcases h with h | h <;> rw [h] <;> simp [jsFalsyStr]
  rw [if_pos hg]

/-- Witness for C5: with no access token stored, refresh fails with the
no-credential error without touching state or the network. -/
theorem c5_witness :
    refreshAccessTokenStart ⟨none, some "r", none, none, [], 1⟩ none =
      (⟨none, some "r", none, none, [], 1⟩, [], .noCredential) :=
  c5_refresh_without_credentials ⟨none, some "r", none, none, [], 1⟩ none (Or.inl rfl)

/-- C2 (amended): with both tokens present, revoke issues the network
request and clears the local session state only when that request succeeds
(the success handler clears tokens, expiry and timer); on failure the error
is re-propagated with the state unchanged, and while the request is
unresolved the state is likewise unchanged. -/
theorem c2_revoke_clears_only_on_success :
    ∀ (s : SessionState) (p : Option (String × String)) (a b : String),
      timerInvB s = true →
      s.accessToken = some a → a ≠ "" → s.refreshToken = some b → b ≠ "" →
      ((revokeRefreshTokenStart s p).1 = s ∧
        (revokeRefreshTokenStart s p).2.2 = .requested ∧
        (revokeRefreshTokenOnError s).1 = s ∧
        (revokeRefreshTokenOnError s).2 = true ∧
        (revokeRefreshTokenOnSuccess s).accessToken = none ∧
        (revokeRefreshTokenOnSuccess s).refreshToken = none ∧
        (revokeRefreshTokenOnSuccess s).tokenExpiration = none ∧
        (revokeRefreshTokenOnSuccess s).liveTimers = []) := by
  intro s p a b hinv ha ha2 hb hb2
  obtain ⟨h1, h2, h3, h4, h5⟩ := clearTokens_fields s hinv
  have hcl := clearRefreshTimer_clears (clearTokens s) (timerInvB_of_nil _ h4)
  have hguard : (jsFalsyStr s.accessToken || jsFalsyStr s.refreshToken) = false := by
    rw [ha, hb]
    simp [jsFalsyStr, ha2, hb2]
  refine ⟨revokeStart_state s p, ?_, rfl, rfl, ?_, ?_, ?_, hcl.1⟩
  · unfold revokeRefreshTokenStart
    rw [hguard]
    rfl
  · show (clearRefreshTimer (clearTokens s)).accessToken = none
    rw [clearRefreshTimer_accessToken]
    exact h1
  · show (clearRefreshTimer (clearTokens s)).refreshToken = none
    rw [clearRefreshTimer_refreshToken]
    exact h2
  · show (clearRefreshTimer (clearTokens s)).tokenExpiration = none
    rw [clearRefreshTimer_tokenExpiration]
    exact h3

/-- Witness for C2 at a concrete authenticated state: the request is issued,
failure leaves the state intact, success clears the tokens. -/
theorem c2_witness :
    (revokeRefreshTokenStart ⟨some "a", some "r", some (.iso 99), none, [], 1⟩ none).2.2
        = .requested ∧
    (revokeRefreshTokenOnSuccess
      ⟨some "a", some "r", some (.iso 99), none, [], 1⟩).accessToken = none := by
  have h := c2_revoke_clears_only_on_success
    ⟨some "a", some "r", some (.iso 99), none, [], 1⟩ none "a" "r" rfl rfl
    (by decide) rfl (by decide)
  exact ⟨h.2.1, h.2.2.2.2.1⟩

/-- Counterexample to C2 as stated: the claim asserts the local state is
cleared whether the revoke request succeeds, fails, or never resolves; on a
failed request — and while the request is pending — both tokens are still
present. -/
theorem c2_counterexample :
    (revokeRefreshTokenOnError
        ⟨some "a", some "r", some (.iso 99), none, [], 1⟩).1.accessToken = some "a" ∧
    (revokeRefreshTokenOnError
        ⟨some "a", some "r", some (.iso 99), none, [], 1⟩).1.refreshToken = some "r" ∧
    (revokeRefreshTokenStart
        ⟨some "a", some "r", some (.iso 99), none, [], 1⟩ none).1.accessToken = some "a" := by
  exact ⟨rfl, rfl, rfl⟩

/-- C6: logout clears both tokens, the persisted expiry and the refresh
timer synchronously, issues no network request at all (the inner revoke
call re-reads the already-cleared storage and short-circuits), and its
observable completes successfully at once for every starting state — so no
network failure can ever surface to the caller. -/
theorem c6_logout_synchronous_clear :
    ∀ s : SessionState, timerInvB s = true →
      (logout s).1.accessToken = none ∧
      (logout s).1.refreshToken = none ∧
      (logout s).1.tokenExpiration = none ∧
      (logout s).1.liveTimers = [] ∧
      (logout s).1.refreshTimer = none ∧
      (logout s).2.1 = [] ∧
      (logout s).2.2 = some true := by
  intro s h
  obtain ⟨h1, h2, h3, h4, h5⟩ := clearTokens_fields s h
  have hcl := clearRefreshTimer_clears (clearTokens s) (timerInvB_of_nil _ h4)
  have haccess : (clearRefreshTimer (clearTokens s)).accessToken = none := by
    rw [clearRefreshTimer_accessToken]
    exact h1
  have hrefresh : (clearRefreshTimer (clearTokens s)).refreshToken = none := by
    rw [clearRefreshTimer_refreshToken]
    exact h2
  have hexp : (clearRefreshTimer (clearTokens s)).tokenExpiration = none := by
    rw [clearRefreshTimer_tokenExpiration]
    exact h3
  have hguard : (jsFalsyStr (clearRefreshTimer (clearTokens s)).accessToken ||
      jsFalsyStr (clearRefreshTimer (clearTokens s)).refreshToken) = true := by
    rw [haccess]
    simp [jsFalsyStr]
  simp only [logout]
  split
  · have hrv : revokeRefreshTokenStart (clearRefreshTimer (clearTokens s))
        (some (s.accessToken.getD "", s.refreshToken.getD "")) =
        (clearRefreshTimer (clearTokens s), [], .immediateSuccess) := by
      unfold revokeRefreshTokenStart
      rw [if_pos hguard]
    rw [hrv]
    exact ⟨haccess, hrefresh, hexp, hcl.1, hcl.2, rfl, rfl⟩
  · exact ⟨haccess, hrefresh, hexp, hcl.1, hcl.2, rfl, rfl⟩

/-- Witness for C6 at a concrete authenticated state with a live timer:
everything is cleared synchronously and the call reports success with no
request issued. -/
theorem c6_witness :
    (logout (runOps [.loginOk ⟨"a", "r", 3600⟩ 0])).1.accessToken = none ∧
    (logout (runOps [.loginOk ⟨"a", "r", 3600⟩ 0])).1.liveTimers = [] ∧
    (logout (runOps [.loginOk ⟨"a", "r", 3600⟩ 0])).2.2 = some true := by
  have h := c6_logout_synchronous_clear (runOps [.loginOk ⟨"a", "r", 3600⟩ 0]) (by decide)
  exact ⟨h.1, h.2.2.2.1, h.2.2.2.2.2.2⟩

/-- C7 (amended): on startup, nothing happens without a token or without a
readable persisted expiry; an already-elapsed expiry triggers an immediate
refresh attempt; a remaining lifetime of more than ten whole seconds arms a
timer for the remaining seconds minus the ten-second margin; and a
remaining lifetime of one to ten whole seconds triggers an immediate
refresh attempt instead of a timer (the scheduler clamps the delay to
zero). -/
theorem c7_initialize_on_startup :
    ∀ (s : SessionState) (now expMs : Int) (a b : String),
      timerInvB s = true →
      ((isAuthenticated s = false → initializeTokenRefresh s now = (s, [])) ∧
       (getTokenExpiration s = none → initializeTokenRefresh s now = (s, [])) ∧
       (s.accessToken = some a → a ≠ "" → s.refreshToken = some b → b ≠ "" →
        s.tokenExpiration = some (.iso expMs) →
        ((Int.fdiv (expMs - now) 1000 ≤ 0 →
            initializeTokenRefresh s now = (s, [.refreshReq a b])) ∧
         (10 < Int.fdiv (expMs - now) 1000 →
            (initializeTokenRefresh s now).1.liveTimers =
              [(s.nextHandle, (Int.fdiv (expMs - now) 1000 - 10) * 1000)] ∧
            (initializeTokenRefresh s now).2 = []) ∧
         (0 < Int.fdiv (expMs - now) 1000 → Int.fdiv (expMs - now) 1000 ≤ 10 →
            (initializeTokenRefresh s now).1.liveTimers = [] ∧
            (initializeTokenRefresh s now).2 = [.refreshReq a b])))) := by
  intro s now expMs a b hinv
  refine ⟨?_, ?_, ?_⟩
  · intro hfalse
    simp [initializeTokenRefresh, hfalse]
  · intro hnone
    by_cases hauth : isAuthenticated s = true
    · simp [initializeTokenRefresh, hauth, hnone]
    · have hf : isAuthenticated s = false := by
        revert hauth
        cases isAuthenticated s <;> simp
      simp [initializeTokenRefresh, hf]
  · intro ha ha2 hb hb2 hexp
    have hauth : isAuthenticated s = true := by
      unfold isAuthenticated jsFalsyStr
      rw [ha]
      simp [ha2]
    have hget : getTokenExpiration s = some expMs := by
      unfold getTokenExpiration
      rw [hexp]
    have hbody : initializeTokenRefresh s now =
        (if Int.fdiv (expMs - now) 1000 ≤ 0 then
          ((refreshAccessTokenStart s none).1, (refreshAccessTokenStart s none).2.1)
        else scheduleTokenRefresh s (Int.fdiv (expMs - now) 1000)) := by
      simp [initializeTokenRefresh, hauth, hget]
    refine ⟨?_, ?_, ?_⟩
    · intro hle
      rw [hbody, if_pos hle, refreshStart_requested s a b ha hb ha2 hb2]
    · intro hgt
      have h0 : ¬ (Int.fdiv (expMs - now) 1000 ≤ 0) := by omega
      rw [hbody, if_neg h0, scheduleTokenRefresh_of_gt _ _ hgt]
      constructor
      · show (clearRefreshTimer s).liveTimers ++
            [((clearRefreshTimer s).nextHandle, (Int.fdiv (expMs - now) 1000 - 10) * 1000)]
            = [(s.nextHandle, (Int.fdiv (expMs - now) 1000 - 10) * 1000)]
        rw [(clearRefreshTimer_clears s hinv).1, clearRefreshTimer_nextHandle]
        rfl
      · rfl
    · intro hpos hle10
      have h0 : ¬ (Int.fdiv (expMs - now) 1000 ≤ 0) := by omega
      rw [hbody, if_neg h0, scheduleTokenRefresh_of_le _ _ hle10]
      refine ⟨(clearRefreshTimer_clears s hinv).1, ?_⟩
      show (refreshAccessTokenStart (clearRefreshTimer s) none).2.1 = [.refreshReq a b]
      rw [refreshStart_requested (clearRefreshTimer s) a b
        (by rw [clearRefreshTimer_accessToken]; exact ha)
        (by rw [clearRefreshTimer_refreshToken]; exact hb) ha2 hb2]

/-- Witness for C7: a persisted expiry 120 seconds ahead arms a timer for
110000 milliseconds; one 5 seconds in the past triggers an immediate
refresh attempt. -/
theorem c7_witness :
    (initializeTokenRefresh
        ⟨some "a", some "r", some (.iso 120000), none, [], 1⟩ 0).1.liveTimers
        = [(1, 110000)] ∧
    (initializeTokenRefresh ⟨some "a", some "r", some (.iso (-5000)), none, [], 1⟩ 0)
        = (⟨some "a", some "r", some (.iso (-5000)), none, [], 1⟩, [.refreshReq "a" "r"]) := by
  have h1 := (c7_initialize_on_startup
    ⟨some "a", some "r", some (.iso 120000), none, [], 1⟩ 0 120000 "a" "r" rfl).2.2
    rfl (by decide) rfl (by decide) rfl
  have h2 := (c7_initialize_on_startup
    ⟨some "a", some "r", some (.iso (-5000)), none, [], 1⟩ 0 (-5000) "a" "r" rfl).2.2
    rfl (by decide) rfl (by decide) rfl
  constructor
  · exact ((h1.2.1 (by decide)).1).trans (by decide)
  · exact h2.1 (by decide)

/-- Counterexample to C7 as stated: a persisted expiry five seconds in the
future is not elapsed, yet startup arms no timer at all and instead issues
an immediate refresh attempt — the claim said this case schedules a timer
for the remaining lifetime minus the ten-second margin. -/
theorem c7_counterexample :
    (initializeTokenRefresh
        ⟨some "a", some "r", some (.iso 5000), none, [], 1⟩ 0).1.liveTimers = [] ∧
    (initializeTokenRefresh
        ⟨some "a", some "r", some (.iso 5000), none, [], 1⟩ 0).2
        = [.refreshReq "a" "r"] :=
  ⟨rfl, rfl⟩

/-- C9 (amended): provided every successful login/refresh response carries
its two token fields either both non-empty or both empty, every state
reached by a sequence of session-manager events has the access token and
refresh token either both present or both absent. -/
theorem c9_tokens_set_and_cleared_together :
    ∀ ops : List Op, (∀ op ∈ ops, opAligned op) →
      tokensTogether (runOps ops) = true := by
  intro ops hq
  unfold runOps
  exact foldl_inv tokensTogether opAligned tokensTogether_step ops initState hq rfl

/-- Witness for C9: a login followed by a failed refresh keeps the two
entries aligned. -/
theorem c9_witness :
    tokensTogether (runOps [.loginOk ⟨"a", "r", 3600⟩ 0, .refreshErr]) = true := by
  apply c9_tokens_set_and_cleared_together
  intro op hop
  fin_cases hop
  · show respAligned ⟨"a", "r", 3600⟩
    unfold respAligned
    simp
  · trivial

/-- Counterexample to C9 as stated: a successful login whose response has a
non-empty `token` but an empty `refreshToken` stores the access token and
removes the refresh token, leaving one present and one absent. -/
theorem c9_counterexample :
    tokensTogether (runOps [.loginOk ⟨"a", "", 3600⟩ 0]) = false := by decide

/-- C10: the setters store no empty string (an empty or null assignment
removes the entry); a login or refresh response with an empty `token` field
leaves `isAuthenticated()` false; `isAuthenticated()` is true exactly when a
non-empty access token string is stored; and no reachable state stores an
empty-string token. -/
theorem c10_empty_string_never_stored :
    (∀ s : SessionState,
      (setAccessToken s (some "")).accessToken = none ∧
      (setAccessToken s none).accessToken = none ∧
      (setRefreshTokenValue s (some "")).refreshToken = none ∧
      (setRefreshTokenValue s none).refreshToken = none) ∧
    (∀ (s : SessionState) (r : AuthResponse) (now : Int), r.token = "" →
      isAuthenticated (step s (.loginOk r now)).1 = false ∧
      isAuthenticated (step s (.refreshOk r now)).1 = false) ∧
    (∀ s : SessionState,
      isAuthenticated s = true ↔ ∃ t, s.accessToken = some t ∧ t ≠ "") ∧
    (∀ ops : List Op,
      (runOps ops).accessToken ≠ some "" ∧ (runOps ops).refreshToken ≠ some "") := by
  refine ⟨?_, ?_, ?_, ?_⟩
  · intro s
    exact ⟨by simp [setAccessToken, jsFalsyStr], by simp [setAccessToken, jsFalsyStr],
      by simp [setRefreshTokenValue, jsFalsyStr], by simp [setRefreshTokenValue, jsFalsyStr]⟩
  · intro s r now ht
    have h1 := (applyAuthResponse_tokens s r now).1
    rw [if_pos ht] at h1
    constructor
    · show isAuthenticated (applyAuthResponse s r now).1 = false
      unfold isAuthenticated jsFalsyStr
      rw [h1]
      rfl
    · show isAuthenticated (applyAuthResponse s r now).1 = false
      unfold isAuthenticated jsFalsyStr
      rw [h1]
      rfl
  · intro s
    unfold isAuthenticated jsFalsyStr
    cases ha : s.accessToken with
    | none => simp
    | some t => simp
  · intro ops
    have h := tokensNeverEmpty_runOps ops
    unfold tokensNeverEmptyB at h
    simp at h
    exact h

/-- Witness for C10: a login whose response carries an empty token leaves
the session unauthenticated. -/
theorem c10_witness :
    isAuthenticated (step initState (.loginOk ⟨"", "r", 100⟩ 0)).1 = false :=
  (c10_empty_string_never_stored.2.1 initState ⟨"", "r", 100⟩ 0 rfl).1

/-- C8: for a token whose middle segment is the base64url encoding of the
payload with subject 42 and role Admin, `getUserId` returns the string 42
and `isAdmin` returns true; and for every token string whose decoding fails
(in particular one missing the middle segment), the decoder returns absent
and `getUserId`, `getUserRole` and `isAdmin` return null, null and false
(all functions are total, so nothing is thrown). -/
theorem c8_jwt_claim_extraction_roundtrip :
    (getUserId (some "header.eyJzdWIiOiI0MiIsInJvbGUiOiJBZG1pbiJ9.sig")
        = some (.str "42") ∧
      isAdmin (some "header.eyJzdWIiOiI0MiIsInJvbGUiOiJBZG1pbiJ9.sig") = true) ∧
    decodeJwtToken "tokenwithnomiddlesegment" = none ∧
    (∀ t : String, decodeJwtToken t = none →
      getUserId (some t) = none ∧ getUserRole (some t) = none ∧
      isAdmin (some t) = false) := by
  refine ⟨⟨rfl, rfl⟩, rfl, ?_⟩
  intro t h
  by_cases te : t = ""
  · subst te
    exact ⟨rfl, rfl, rfl⟩
  · have hrole : getUserRole (some t) = none := by
      unfold getUserRole
      simp only [Option.getD_some]
      rw [if_neg te, h]
      rfl
    refine ⟨?_, hrole, ?_⟩
    · unfold getUserId
      simp only [Option.getD_some]
      rw [if_neg te, h]
      rfl
    · simp only [isAdmin]
      rw [hrole]
      rfl

/-- Witness for C8 at a concrete malformed token with no middle segment. -/
theorem c8_witness :
    getUserId (some "notatoken") = none ∧ getUserRole (some "notatoken") = none ∧
    isAdmin (some "notatoken") = false :=
  c8_jwt_claim_extraction_roundtrip.2.2 "notatoken" rfl

/-- C1: evaluation of the interceptor at the failing input.  A 401 response
whose body carries any extractable error message (here a `title` field) is
consumed by the general message branch before the 401 branch is ever
reached: tokens and profile are not cleared, no navigation to login
happens, and the session stays authenticated.  Only a 401 whose body yields
no message (here a null body) takes the 401 branch and clears everything.
The 401 branch's own inner re-check of the extracted messages is
unreachable, which marks the shadowing as a slip rather than a design. -/
theorem c1_unauthorized_with_message_body_not_cleared :
    ((errorInterceptor
        ⟨401, "Unauthorized", .obj [("title", .str "Unauthorized")],
         "Http failure response for https://api.example.com/Account/profile: 401 Unauthorized",
         none⟩
        ⟨some "a", some "r", some (.iso 99), none, [], 1⟩).1.clearedTokens = false ∧
      (errorInterceptor
        ⟨401, "Unauthorized", .obj [("title", .str "Unauthorized")],
         "Http failure response for https://api.example.com/Account/profile: 401 Unauthorized",
         none⟩
        ⟨some "a", some "r", some (.iso 99), none, [], 1⟩).1.clearedProfile = false ∧
      (errorInterceptor
        ⟨401, "Unauthorized", .obj [("title", .str "Unauthorized")],
         "Http failure response for https://api.example.com/Account/profile: 401 Unauthorized",
         none⟩
        ⟨some "a", some "r", some (.iso 99), none, [], 1⟩).1.navigatedToLogin = false ∧
      isAuthenticated (errorInterceptor
        ⟨401, "Unauthorized", .obj [("title", .str "Unauthorized")],
         "Http failure response for https://api.example.com/Account/profile: 401 Unauthorized",
         none⟩
        ⟨some "a", some "r", some (.iso 99), none, [], 1⟩).2 = true) ∧
    ((errorInterceptor
        ⟨401, "Unauthorized", .null,
         "Http failure response for https://api.example.com/Account/profile: 401 Unauthorized",
         none⟩
        ⟨some "a", some "r", some (.iso 99), none, [], 1⟩).1.clearedTokens = true ∧
      (errorInterceptor
        ⟨401, "Unauthorized", .null,
         "Http failure response for https://api.example.com/Account/profile: 401 Unauthorized",
         none⟩
        ⟨some "a", some "r", some (.iso 99), none, [], 1⟩).1.clearedProfile = true ∧
      (errorInterceptor
        ⟨401, "Unauthorized", .null,
         "Http failure response for https://api.example.com/Account/profile: 401 Unauthorized",
         none⟩
        ⟨some "a", some "r", some (.iso 99), none, [], 1⟩).1.navigatedToLogin = true ∧
      isAuthenticated (errorInterceptor
        ⟨401, "Unauthorized", .null,
         "Http failure response for https://api.example.com/Account/profile: 401 Unauthorized",
         none⟩
        ⟨some "a", some "r", some (.iso 99), none, [], 1⟩).2 = false) :=
  ⟨⟨rfl, rfl, rfl, rfl⟩, ⟨rfl, rfl, rfl, rfl⟩⟩

end Eskon
